import Mathlib

/-!
Shallow embedding of the agekey-mcp server's core subsystems:
the session store (`src/auth/session.ts`), the OAuth device-flow
authenticator (`src/auth/clerk-oauth.ts`), the authenticated request
gateway (`src/api/client.ts`) and the confirmation-gated mutation tools
(`src/tools/credentials.ts`, redirect-URI tools).

Conventions of the embedding:
* ISO-8601 timestamp strings are modelled by their epoch value (an `Int`,
  milliseconds); `new Date(a) < new Date(b)` becomes `a < b`.
* The filesystem session file is a `FileState`: absent, corrupt
  (unparsable JSON), or storing a parsed `Session`.
* Network responses are inputs to the embedded functions: each embedded
  operation takes the responses the remote server would have produced and
  returns its result together with a trace of the side effects it
  performed (fetch count, authenticate count, whether the mutation call
  was issued).
* JavaScript falsiness of an optional string field (`undefined` or `""`)
  is modelled explicitly where the source relies on it.
-/

namespace AgekeyMcp

/-- Model of `Session.user` from `src/types.ts`: `{ id, email, firstName?, lastName? }`. -/
structure User where
  id : String
  email : String
  firstName : Option String := none
  lastName : Option String := none
  deriving Repr, DecidableEq

/-- Model of `Session` from `src/types.ts`; `expiresAt` is the epoch value of the
ISO-8601 string the source stores. -/
structure Session where
  accessToken : String
  refreshToken : Option String := none
  expiresAt : Int
  user : User
  deriving Repr, DecidableEq

/-- The on-disk `~/.agekey/session.json` file: missing, unparsable JSON
(`JSON.parse` throws), or a parsed session. -/
inductive FileState where
  | absent : FileState
  | corrupt : FileState
  | stored : Session → FileState
  deriving Repr, DecidableEq

/-- The session store's state (`src/auth/session.ts`): the module-level
in-memory `sessionCache` plus the persisted file. -/
structure SessionStore where
  cache : Option Session
  file : FileState
  deriving Repr, DecidableEq

/-- Model of `clearSession` (`src/auth/session.ts`): resets `sessionCache` to null and
deletes the session file (tolerant of a missing file). -/
def clearSession (_st : SessionStore) : SessionStore :=
  { cache := none, file := FileState.absent }

/-- The disk-reading part of `loadSession` (`src/auth/session.ts`, the `try`
block): missing file → null; parse failure → `clearSession`, null; expired
(`new Date(session.expiresAt) < new Date()`, strict) → `clearSession`, null;
otherwise cache and return the session. -/
def loadSessionDisk (st : SessionStore) (now : Int) : Option Session × SessionStore :=
  match st.file with
  | FileState.absent => (none, st)
  | FileState.corrupt => (none, clearSession st)
  | FileState.stored s =>
    if s.expiresAt < now then (none, clearSession st)
    else (some s, { st with cache := some s })

/-- Model of `loadSession` (`src/auth/session.ts`): serve the in-memory cache when it
is present and unexpired (`new Date(sessionCache.expiresAt) >= new Date()`);
an expired cache entry is discarded (`sessionCache = null`) before falling
through to the disk read. -/
def loadSession (st : SessionStore) (now : Int) : Option Session × SessionStore :=
  match st.cache with
  | some c =>
    if now ≤ c.expiresAt then (some c, st)
    else loadSessionDisk { st with cache := none } now
  | none => loadSessionDisk st now

/-- Model of `saveSession` (`src/auth/session.ts`): writes the session file (mode 600)
and updates the in-memory cache. -/
def saveSession (st : SessionStore) (s : Session) : SessionStore :=
  { st with cache := some s, file := FileState.stored s }

/-- Model of `getAccessToken` (`src/auth/session.ts`): projection of `loadSession`. -/
def getAccessToken (st : SessionStore) (now : Int) : Option String × SessionStore :=
  let (s, st') := loadSession st now
  (s.map Session.accessToken, st')

/-- A concrete user, for evaluating the store operations. -/
def sampleUser : User :=
  { id := "user_1", email := "dev@example.com" }

/-- A concrete session whose expiry (epoch 0) is already in the past at any
positive `now`. -/
def expiredSession : Session :=
  { accessToken := "tok_old", expiresAt := 0, user := sampleUser }

/-- A concrete session expiring at epoch 1000. -/
def freshSession : Session :=
  { accessToken := "tok_new", expiresAt := 1000, user := sampleUser }

/-- Cache/file coherence: the in-memory cache is empty or mirrors the parsed
content of the session file. Every store operation of the source preserves
this (it is established by `saveSession` and `loadSession` and restored by
`clearSession`). -/
def SessionStore.consistent (st : SessionStore) : Prop :=
  st.cache = none ∨ ∃ s, st.file = FileState.stored s ∧ st.cache = some s

/-- Model of `OAuthTokenResponse` from `src/types.ts` (camel-cased token endpoint
success body). -/
structure OAuthTokenResponse where
  accessToken : String
  refreshToken : Option String := none
  expiresIn : Int
  tokenType : String
  deriving Repr, DecidableEq

/-- The observable outcome of one token-endpoint poll
(`src/auth/clerk-oauth.ts`, body of the `for` loop): a 2xx response with a
parsable token body, a non-2xx response with a parsable `{error}` body, or a
transport/parse failure (the `catch` path). -/
inductive PollOutcome where
  | success : OAuthTokenResponse → PollOutcome
  | errorBody : String → PollOutcome
  | network : PollOutcome
  deriving Repr, DecidableEq

/-- Thrown for `expired_token` and for attempt exhaustion. -/
def timeoutMessage : String := "Authentication timed out. Please try again."

/-- Thrown for `access_denied`. -/
def deniedMessage : String := "Authentication was denied. Please try again."

/-- Thrown for any other error body. -/
def genericFailureMessage (e : String) : String := "Authentication failed: " ++ e

/-- Model of `maxAttempts = 60` in `pollForToken` (`src/auth/clerk-oauth.ts`). -/
def maxAttempts : Nat := 60

/-- One unrolling of the `pollForToken` loop, with `fuel` remaining attempts
and `attempt` iterations already performed; returns the result together with
the total number of poll attempts made. `authorization_pending` and
`slow_down` continue (the latter after an extra sleep, invisible here);
`expired_token`, `access_denied` and unknown error codes throw errors whose
messages contain "Authentication" and are hence re-thrown by the `catch`;
a transport error is swallowed by the `catch` and the loop continues. -/
def pollAux (outcomes : Nat → PollOutcome) (attempt : Nat) :
    Nat → Except String OAuthTokenResponse × Nat
  | 0 => (Except.error timeoutMessage, attempt)
  | fuel + 1 =>
    match outcomes attempt with
    | PollOutcome.success t => (Except.ok t, attempt + 1)
    | PollOutcome.errorBody e =>
      if e = "authorization_pending" then pollAux outcomes (attempt + 1) fuel
      else if e = "slow_down" then pollAux outcomes (attempt + 1) fuel
      else if e = "expired_token" then (Except.error timeoutMessage, attempt + 1)
      else if e = "access_denied" then (Except.error deniedMessage, attempt + 1)
      else (Except.error (genericFailureMessage e), attempt + 1)
    | PollOutcome.network => pollAux outcomes (attempt + 1) fuel

/-- Model of `pollForToken` (`src/auth/clerk-oauth.ts`): run the poll loop for at most
`maxAttempts` attempts over the given response sequence. -/
def pollForToken (outcomes : Nat → PollOutcome) :
    Except String OAuthTokenResponse × Nat :=
  pollAux outcomes 0 maxAttempts

/-- The environment `authenticate` (`src/auth/clerk-oauth.ts`) runs in: the
session found by its initial `loadSession()`, whether the device-code POST
returned 2xx, the token-endpoint poll outcomes, and the verify endpoint's
response (`some user` on 2xx). -/
structure AuthWorld where
  existingSession : Option Session
  deviceCodeOk : Bool
  pollOutcomes : Nat → PollOutcome
  verifyUser : Option User
  now : Int

/-- Model of `authenticate` (`src/auth/clerk-oauth.ts`): short-circuit on a cached
session; otherwise request a device code (non-2xx is fatal), poll for the
token, then build the session via the verify endpoint
(`createSession`: `expiresAt = now + expiresIn * 1000`) — persisting it is
a `saveSession` on the store, not modelled here. -/
def authenticate (w : AuthWorld) : Except String Session :=
  match w.existingSession with
  | some s => Except.ok s
  | none =>
    if w.deviceCodeOk then
      match (pollForToken w.pollOutcomes).1 with
      | Except.error e => Except.error e
      | Except.ok t =>
        match w.verifyUser with
        | none => Except.error "Failed to verify token"
        | some u =>
          Except.ok { accessToken := t.accessToken, refreshToken := t.refreshToken,
                      expiresAt := w.now + t.expiresIn * 1000, user := u }
    else Except.error "Failed to request device code"

/-- A poll outcome that neither resolves nor is fatal: the user has not
approved yet, or the network failed transiently. -/
def PollOutcome.nonResolving (o : PollOutcome) : Prop :=
  o = PollOutcome.errorBody "authorization_pending" ∨ o = PollOutcome.network

/-- An HTTP response as seen by the request gateway (`src/api/client.ts`):
status code, the parsed error body's `message` field (`none` when the body
is unparsable or has no `message` — `.catch` substitutes
`{ message: statusText }`), the status text, and the raw 2xx payload. -/
structure HttpResponse where
  status : Nat
  message : Option String := none
  statusText : String := ""
  payload : String := ""
  deriving Repr, DecidableEq

/-- Model of `response.ok` of `fetch`: status in `[200, 300)`. -/
def HttpResponse.ok (r : HttpResponse) : Bool :=
  decide (200 ≤ r.status) && decide (r.status < 300)

/-- Model of `error.message || response.statusText` (JS falsiness: a missing or empty
`message` falls back to the status text). -/
def HttpResponse.errMessage (r : HttpResponse) : String :=
  match r.message with
  | some m => if m = "" then r.statusText else m
  | none => r.statusText

/-- Model of `ApiResponse<T>` from `src/types.ts`, as produced by `request`:
`{success: true, data}` or `{success: false, error: {code, message}}`. -/
inductive ApiResult where
  | success : String → ApiResult
  | failure : String → String → ApiResult
  deriving Repr, DecidableEq

/-- The structured error `request` builds from a failed response:
`code = "HTTP_" + status`, message per `errMessage`. -/
def structuredError (r : HttpResponse) : ApiResult :=
  ApiResult.failure ("HTTP_" ++ toString r.status) r.errMessage

/-- Trace of the side effects of one `request` call: how many times the
original call was fetched, how many times `authenticate()` ran in total and
from the 401 handler, whether `clearSession()` ran, and the bearer tokens
attached to the fetches in order. -/
structure RequestTrace where
  fetches : Nat
  authRuns : Nat
  reAuthRuns : Nat
  clearedSession : Bool
  tokens : List String
  deriving Repr, DecidableEq

/-- Model of `request` (`src/api/client.ts`): take the stored token, or run
`authenticate()` when there is none; fetch with the bearer token; on 2xx
return the payload; on 401 clear the session, run `authenticate()` again,
retry the original call exactly once with the new token, and return the
retry's payload or its structured error (the retry's status is not
re-inspected for 401); any other failure maps to the structured error.
`auth n` is the access token the n-th `authenticate()` run would produce
and `resp n` the response to the n-th fetch of this call. -/
def request (initialToken : Option String) (auth : Nat → String)
    (resp : Nat → HttpResponse) : ApiResult × RequestTrace :=
  let acquired : String × Nat := match initialToken with
    | some t => (t, 0)
    | none => (auth 0, 1)
  let token := acquired.1
  let initialAuth := acquired.2
  let r0 := resp 0
  if r0.ok then
    (ApiResult.success r0.payload, ⟨1, initialAuth, 0, false, [token]⟩)
  else if r0.status = 401 then
    let newToken := auth initialAuth
    let r1 := resp 1
    if r1.ok then
      (ApiResult.success r1.payload,
        ⟨2, initialAuth + 1, 1, true, [token, newToken]⟩)
    else
      (structuredError r1, ⟨2, initialAuth + 1, 1, true, [token, newToken]⟩)
  else
    (structuredError r0, ⟨1, initialAuth, 0, false, [token]⟩)

/-- The `"test" | "live"` environment field of the mutation tools. -/
inductive Env where
  | test
  | live
  deriving Repr, DecidableEq

/-- Model of `ToolResult<T>` from `src/types.ts`: the three-way result shape every
tool returns (`success`/`data`/`error`/`requiresConfirmation`/
`confirmationPhrase`/`warning`, optional fields modelled as `Option`). -/
structure ToolResult (α : Type) where
  success : Bool
  data : Option α := none
  error : Option String := none
  requiresConfirmation : Option Bool := none
  confirmationPhrase : Option String := none
  warning : Option String := none
  deriving Repr, DecidableEq

/-- Model of `ApiResponse<T>` from `src/types.ts` as consumed by the tool handlers:
the remote mutation call's reply. -/
structure ApiReply (α : Type) where
  success : Bool
  data : Option α := none
  errorMessage : Option String := none
  deriving Repr, DecidableEq

/-- Model of `response.error?.message || dflt` (JS falsiness: missing or empty
message falls back to the default). -/
def ApiReply.errOr {α : Type} (r : ApiReply α) (dflt : String) : String :=
  match r.errorMessage with
  | some m => if m = "" then dflt else m
  | none => dflt

/-- JS falsiness of an optional string (`undefined` or `""`). -/
def optFalsy : Option String → Bool
  | none => true
  | some s => decide (s = "")

/-- Model of `RotateCredentialsInput` (`src/tools/credentials.ts`). -/
structure RotateCredentialsInput where
  appId : String
  environment : Env
  orgId : String
  confirmation : Option String := none
  deriving Repr, DecidableEq

/-- The mutation reply's payload for `rotate_credentials`. -/
structure RotateData where
  newAppId : String
  newSecret : String
  oldAppIdInvalidated : Option Bool := none
  urgentAction : Option String := none
  deriving Repr, DecidableEq

/-- Model of `RotateCredentialsResult` (`src/tools/credentials.ts`). -/
structure RotateCredentialsResult where
  newAppId : String
  newSecret : String
  oldAppIdInvalidated : Bool
  urgentAction : Option String := none
  deriving Repr, DecidableEq

/-- Model of `TEST_CONFIRMATION` (`src/tools/credentials.ts`). -/
def TEST_CONFIRMATION : String := "ROTATE TEST CREDENTIALS"

/-- Model of `LIVE_CONFIRMATION` (`src/tools/credentials.ts`). -/
def LIVE_CONFIRMATION : String := "ROTATE LIVE CREDENTIALS"

/-- The live-rotation blast-radius warning text. -/
def rotateLiveWarning : String :=
  "⚠️ WARNING: This will rotate LIVE credentials for this application.\n\n**Impact:**\n• Current credentials will be IMMEDIATELY invalidated\n• All production traffic using old credentials will FAIL\n• You must update your production environment IMMEDIATELY after\n\n**Your role must be Admin or Owner to perform this action.**\n\nTo proceed, please confirm by providing: \"ROTATE LIVE CREDENTIALS\""

/-- The test-rotation warning text. -/
def rotateTestWarning : String :=
  "This will rotate TEST credentials for this application.\n\nThe old test credentials will be invalidated. Your test environment will need to be updated.\n\nTo proceed, confirm with: \"ROTATE TEST CREDENTIALS\""

/-- Model of `rotateCredentials` (`src/tools/credentials.ts`): live mode demands the
exact live phrase; test mode asks for confirmation only when none (falsy)
was supplied; otherwise the mutation call is issued (the `Bool` of the
result records whether `apiClient.rotateCredentials` was invoked, `api`
being the reply it would produce). -/
def rotateCredentials (input : RotateCredentialsInput)
    (api : ApiReply RotateData) : ToolResult RotateCredentialsResult × Bool :=
  if input.environment = Env.live ∧ input.confirmation ≠ some LIVE_CONFIRMATION then
    ({ success := false, requiresConfirmation := some true,
       confirmationPhrase := some LIVE_CONFIRMATION,
       warning := some rotateLiveWarning }, false)
  else if input.environment ≠ Env.live ∧ optFalsy input.confirmation then
    ({ success := false, requiresConfirmation := some true,
       confirmationPhrase := some TEST_CONFIRMATION,
       warning := some rotateTestWarning }, false)
  else
    match api.success, api.data with
    | true, some d =>
      ({ success := true,
         data := some { newAppId := d.newAppId, newSecret := d.newSecret,
                        oldAppIdInvalidated := d.oldAppIdInvalidated.getD true,
                        urgentAction := if optFalsy d.urgentAction then none
                                        else d.urgentAction } }, true)
    | _, _ =>
      ({ success := false,
         error := some (api.errOr "Failed to rotate credentials") }, true)

/-- The outcome of `new URL(uri)` when it does not throw: the fields
`validateRedirectUri` inspects. WHATWG URL parsing itself is a platform
library, external to the repository, so the parse result is an input. -/
structure URLParts where
  protocol : String
  hostname : String
  deriving Repr, DecidableEq

/-- The `{ valid, error? }` record `validateRedirectUri` returns. -/
structure ValidationResult where
  valid : Bool
  error : Option String := none
  deriving Repr, DecidableEq

/-- Model of `validateRedirectUri` (redirect-URI tools): a throwing `new URL` means
invalid format; in live mode, non-HTTPS is rejected unless the hostname is
`localhost`, and then `localhost`/`127.0.0.1` hostnames are rejected
outright; test mode accepts every parsable URL. `parsedUri` is the result
of `new URL(uri)` (`none` when the constructor throws). -/
def validateRedirectUri (parsedUri : Option URLParts)
    (environment : Env) : ValidationResult :=
  match parsedUri with
  | none => { valid := false, error := some "Invalid URL format" }
  | some url =>
    if environment = Env.live then
      if url.protocol ≠ "https:" ∧ url.hostname ≠ "localhost" then
        { valid := false,
          error := some "Live redirect URIs must use HTTPS (localhost is also not allowed in live mode)" }
      else if url.hostname = "localhost" ∨ url.hostname = "127.0.0.1" then
        { valid := false, error := some "localhost is not allowed for live redirect URIs" }
      else { valid := true }
    else { valid := true }

/-- Model of `AddRedirectUriInput` (redirect-URI tools), carrying both the raw `uri`
string and its parse result. -/
structure AddRedirectUriInput where
  appId : String
  uri : String
  parsedUri : Option URLParts
  environment : Env
  orgId : String
  confirmation : Option String := none
  deriving Repr, DecidableEq

/-- Model of `RemoveRedirectUriInput` (redirect-URI tools). -/
structure RemoveRedirectUriInput where
  appId : String
  uri : String
  environment : Env
  orgId : String
  confirmation : Option String := none
  deriving Repr, DecidableEq

/-- Model of `AddRedirectUriResult` (redirect-URI tools). -/
structure AddRedirectUriResult where
  redirectUris : List String
  added : String
  deriving Repr, DecidableEq

/-- Model of `RemoveRedirectUriResult` (redirect-URI tools). -/
structure RemoveRedirectUriResult where
  redirectUris : List String
  removed : String
  deriving Repr, DecidableEq

/-- Model of `ADD_LIVE_CONFIRMATION` (redirect-URI tools). -/
def ADD_LIVE_CONFIRMATION : String := "ADD LIVE URI"

/-- Model of `REMOVE_LIVE_CONFIRMATION` (redirect-URI tools). -/
def REMOVE_LIVE_CONFIRMATION : String := "REMOVE LIVE URI"

/-- Warning for adding a live redirect URI. -/
def addLiveWarning (uri : String) : String :=
  "⚠️ Adding a LIVE redirect URI: " ++ uri ++ "\n\nThis will allow this URI to receive production callbacks.\n\n**Requires Admin or Owner role.**\n\nTo proceed, confirm with: \"ADD LIVE URI\""

/-- Warning for removing a live redirect URI. -/
def removeLiveWarning (uri : String) : String :=
  "⚠️ Removing LIVE redirect URI: " ++ uri ++ "\n\n**Impact:**\n• Callbacks to this URI will STOP working immediately\n• Any production integration using this URI will FAIL\n\n**Requires Admin or Owner role.**\n\nTo proceed, confirm with: \"REMOVE LIVE URI\""

/-- Model of `addRedirectUri` (redirect-URI tools): validate the URI first, then gate
live mode behind the exact add phrase, then issue the mutation call (the
`Bool` records whether `apiClient.addRedirectUri` ran). -/
def addRedirectUri (input : AddRedirectUriInput)
    (api : ApiReply (List String)) : ToolResult AddRedirectUriResult × Bool :=
  let validation := validateRedirectUri input.parsedUri input.environment
  if validation.valid = false then
    ({ success := false, error := validation.error }, false)
  else if input.environment = Env.live ∧ input.confirmation ≠ some ADD_LIVE_CONFIRMATION then
    ({ success := false, requiresConfirmation := some true,
       confirmationPhrase := some ADD_LIVE_CONFIRMATION,
       warning := some (addLiveWarning input.uri) }, false)
  else
    match api.success, api.data with
    | true, some uris =>
      ({ success := true,
         data := some { redirectUris := uris, added := input.uri } }, true)
    | _, _ =>
      ({ success := false,
         error := some (api.errOr "Failed to add redirect URI") }, true)

/-- Model of `removeRedirectUri` (redirect-URI tools): live mode is gated behind the
exact remove phrase; test mode goes straight to the mutation call. -/
def removeRedirectUri (input : RemoveRedirectUriInput)
    (api : ApiReply (List String)) : ToolResult RemoveRedirectUriResult × Bool :=
  if input.environment = Env.live ∧ input.confirmation ≠ some REMOVE_LIVE_CONFIRMATION then
    ({ success := false, requiresConfirmation := some true,
       confirmationPhrase := some REMOVE_LIVE_CONFIRMATION,
       warning := some (removeLiveWarning input.uri) }, false)
  else
    match api.success, api.data with
    | true, some uris =>
      ({ success := true,
         data := some { redirectUris := uris, removed := input.uri } }, true)
    | _, _ =>
      ({ success := false,
         error := some (api.errOr "Failed to remove redirect URI") }, true)

/-- A concrete successful rotation reply, for evaluating the handlers. -/
def sampleRotateReply : ApiReply RotateData :=
  { success := true, data := some { newAppId := "app_2", newSecret := "sk_2" } }

/-- A concrete successful redirect-URI reply. -/
def sampleUriReply : ApiReply (List String) :=
  { success := true, data := some ["http://localhost:3000/callback"] }

/-- A concrete test-mode rotation input carrying an arbitrary non-matching,
non-empty confirmation string. -/
def rotateTestMismatchInput : RotateCredentialsInput :=
  { appId := "app_1", environment := Env.test, orgId := "org_1",
    confirmation := some "banana" }

/-- A concrete test-mode add-redirect-URI input with no confirmation. -/
def addTestInput : AddRedirectUriInput :=
  { appId := "app_1", uri := "http://localhost:3000/callback",
    parsedUri := some { protocol := "http:", hostname := "localhost" },
    environment := Env.test, orgId := "org_1" }

/-- A concrete test-mode remove-redirect-URI input with no confirmation. -/
def removeTestInput : RemoveRedirectUriInput :=
  { appId := "app_1", uri := "http://localhost:3000/callback",
    environment := Env.test, orgId := "org_1" }

/-- A concrete live-mode add input whose URI is plain HTTP on a public
host. -/
def addLiveHttpInput : AddRedirectUriInput :=
  { appId := "app_1", uri := "http://example.com/callback",
    parsedUri := some { protocol := "http:", hostname := "example.com" },
    environment := Env.live, orgId := "org_1" }

theorem consistent_clearSession (st : SessionStore) :
    (clearSession st).consistent := Or.inl rfl

theorem consistent_saveSession (st : SessionStore) (s : Session) :
    (saveSession st s).consistent := Or.inr ⟨s, rfl, rfl⟩

theorem consistent_loadSessionDisk (st : SessionStore) (now : Int)
    (h : st.cache = none) : (loadSessionDisk st now).2.consistent := by
  unfold loadSessionDisk
  cases hf : st.file with
  | absent => exact Or.inl h
  | corrupt => exact Or.inl rfl
  | stored s =>
    by_cases he : s.expiresAt < now
    · simp [he]
      exact Or.inl rfl
    · simp [he]
      exact Or.inr ⟨s, rfl, rfl⟩

theorem consistent_loadSession (st : SessionStore) (now : Int)
    (h : st.consistent) : (loadSession st now).2.consistent := by
  unfold loadSession
  cases hc : st.cache with
  | none => exact consistent_loadSessionDisk st now hc
  | some c =>
    by_cases he : now ≤ c.expiresAt
    · simp [he]
      exact h
    · simp [he]
      exact consistent_loadSessionDisk { st with cache := none } now rfl

/-- Claim C6: on a coherent store, `loadSession` run at time `now` (i) returns
`null` and removes the persisted storage whenever the stored session's
`expiresAt` is strictly before `now`, (ii) does the same for a corrupt
(unparsable) session file, and (iii) the comparison is strict: a stored
session with `expiresAt` equal to `now` is still returned. -/
theorem loadSession_expired_or_corrupt (st : SessionStore) (now : Int)
    (hc : st.consistent) :
    (∀ S, st.file = FileState.stored S → S.expiresAt < now →
      loadSession st now = (none, { cache := none, file := FileState.absent })) ∧
    (st.file = FileState.corrupt →
      loadSession st now = (none, { cache := none, file := FileState.absent })) ∧
    (∀ S, st.cache = none → st.file = FileState.stored S → S.expiresAt = now →
      (loadSession st now).1 = some S) := by
  refine ⟨?_, ?_, ?_⟩
  · intro S hf he
    unfold loadSession loadSessionDisk
    cases hcc : st.cache with
    | none =>
      simp [hf, not_le.mpr he, clearSession]
    | some c =>
      rcases hc with h | ⟨s, hs, hcs⟩
      · exact absurd (hcc ▸ h) (by simp)
      · have hcS : c = S := by
          have := hcs.symm.trans hcc
          have hsS : s = S := by
            have := hs.symm.trans hf
            exact FileState.stored.inj this
          simpa [hsS] using (Option.some.inj this).symm
        have : ¬ now ≤ c.expiresAt := by
          rw [hcS]; exact not_le.mpr he
        simp [this, hf, not_le.mpr he, clearSession]
  · intro hf
    cases hcc : st.cache with
    | none =>
      unfold loadSession loadSessionDisk
      simp [hcc, hf, clearSession]
    | some c =>
      rcases hc with h | ⟨s, hs, _⟩
      · exact absurd (hcc ▸ h) (by simp)
      · rw [hs] at hf; exact absurd hf (by simp)
  · intro S hcc hf he
    unfold loadSession loadSessionDisk
    simp [hcc, hf, he]

/-- Claim C6 witness: a coherent store holding a session expired at `now = 5`. -/
theorem loadSession_expired_or_corrupt_witness :
    (loadSession { cache := none, file := FileState.stored expiredSession } 5).1 = none := by
  have h := loadSession_expired_or_corrupt
    { cache := none, file := FileState.stored expiredSession } 5 (Or.inl rfl)
  have := h.1 expiredSession rfl (by decide)
  simp [this]

/-- Claim C7 counterexample: `saveSession` of an already-expired session followed
immediately by `loadSession` returns `null`, not the saved session — the
round-trip claim fails for expired sessions. -/
theorem save_load_roundtrip_fails_when_expired :
    (loadSession (saveSession { cache := none, file := FileState.absent } expiredSession) 1).1
      ≠ some expiredSession := by
  decide

/-- Claim C7 (amended): for every session `S` not yet expired at load time
(`now ≤ S.expiresAt`), `saveSession S` followed immediately by `loadSession`
returns a session equal to `S`. -/
theorem save_load_roundtrip (st : SessionStore) (S : Session) (now : Int)
    (h : now ≤ S.expiresAt) :
    (loadSession (saveSession st S) now).1 = some S := by
  unfold saveSession loadSession
  simp [h]

/-- Claim C7 witness: round-trip at a concrete unexpired session. -/
theorem save_load_roundtrip_witness :
    (loadSession (saveSession { cache := none, file := FileState.absent } freshSession) 1).1
      = some freshSession :=
  save_load_roundtrip { cache := none, file := FileState.absent } freshSession 1 (by decide)

/-- Claim C10: `loadSession` never returns an expired session: over every store
state, a non-null result has `expiresAt ≥ now`; and an expired cached
session is discarded (cache set to null) rather than served. -/
theorem loadSession_never_expired (st : SessionStore) (now : Int) :
    (∀ s, (loadSession st now).1 = some s → now ≤ s.expiresAt) ∧
    (∀ c, st.cache = some c → c.expiresAt < now → st.file = FileState.absent →
      (loadSession st now).2.cache = none) := by
  constructor
  · intro s hs
    unfold loadSession loadSessionDisk at hs
    cases hcc : st.cache with
    | some c =>
      rw [hcc] at hs
      by_cases hle : now ≤ c.expiresAt
      · simp [hle] at hs
        rwa [← hs]
      · simp [hle] at hs
        cases hf : st.file with
        | absent => rw [hf] at hs; simp at hs
        | corrupt => rw [hf] at hs; simp at hs
        | stored S =>
          rw [hf] at hs
          by_cases he : S.expiresAt < now
          · simp [he] at hs
          · simp [he] at hs
            rw [← hs]; exact not_lt.mp he
    | none =>
      rw [hcc] at hs
      cases hf : st.file with
      | absent => rw [hf] at hs; simp at hs
      | corrupt => rw [hf] at hs; simp at hs
      | stored S =>
        rw [hf] at hs
        by_cases he : S.expiresAt < now
        · simp [he] at hs
        · simp [he] at hs
          rw [← hs]; exact not_lt.mp he
  · intro c hcc he hf
    unfold loadSession loadSessionDisk
    simp [hcc, not_le.mpr he, hf]

/-- Claim C10 witness: a store caching an expired session over no file. -/
theorem loadSession_never_expired_witness :
    (5 : Int) ≤ freshSession.expiresAt ∧
    (loadSession { cache := some expiredSession, file := FileState.absent } 5).2.cache = none := by
  constructor
  · exact (loadSession_never_expired
      { cache := none, file := FileState.stored freshSession } 5).1 freshSession (by decide)
  · exact (loadSession_never_expired
      { cache := some expiredSession, file := FileState.absent } 5).2 expiredSession rfl
      (by decide) rfl

/-- A poll run whose every remaining outcome is non-resolving consumes all
its remaining attempts and times out. -/
theorem pollAux_nonResolving (outcomes : Nat → PollOutcome) :
    ∀ (fuel attempt : Nat),
      (∀ i, attempt ≤ i → i < attempt + fuel → (outcomes i).nonResolving) →
      pollAux outcomes attempt fuel = (Except.error timeoutMessage, attempt + fuel)
  | 0, attempt, _ => by simp [pollAux]
  | fuel + 1, attempt, h => by
    have ih := pollAux_nonResolving outcomes fuel (attempt + 1)
      (fun i hi hlt => h i (by omega) (by omega))
    rcases h attempt le_rfl (by omega) with h0 | h0 <;>
      · simp [pollAux, h0, ih]
        omega

/-- Claim C4: with no cached session and a successful device-code request, if
every one of the first 60 token-endpoint outcomes is `authorization_pending`
or a transport error (in any combination), the poll loop makes exactly 60
attempts — transport errors consume attempt slots too — and `authenticate`
fails with the timeout error. -/
theorem poll_exhaustion_timeout (w : AuthWorld)
    (hs : w.existingSession = none) (hd : w.deviceCodeOk = true)
    (h : ∀ i, i < maxAttempts → (w.pollOutcomes i).nonResolving) :
    pollForToken w.pollOutcomes = (Except.error timeoutMessage, 60) ∧
    authenticate w = Except.error timeoutMessage := by
  have hp : pollForToken w.pollOutcomes = (Except.error timeoutMessage, 60) := by
    have := pollAux_nonResolving w.pollOutcomes maxAttempts 0
      (fun i _ hlt => h i (by simpa using hlt))
    simpa [pollForToken, maxAttempts] using this
  refine ⟨hp, ?_⟩
  unfold authenticate
  rw [hs]
  simp [hd, hp]

/-- Claim C4 witness: the always-pending world times out. -/
theorem poll_exhaustion_timeout_witness :
    authenticate { existingSession := none, deviceCodeOk := true,
                   pollOutcomes := fun _ => PollOutcome.errorBody "authorization_pending",
                   verifyUser := none, now := 0 } = Except.error timeoutMessage :=
  (poll_exhaustion_timeout _ rfl rfl (fun _ _ => Or.inl rfl)).2

/-- Claim C5: with no cached session and a successful device-code request, an
`access_denied` error body on the first poll makes `authenticate` fail with
the denial-specific message after exactly one poll attempt; that message is
distinct from the timeout message and from every generic
`Authentication failed: <code>` message. -/
theorem poll_access_denied_first (w : AuthWorld)
    (hs : w.existingSession = none) (hd : w.deviceCodeOk = true)
    (h0 : w.pollOutcomes 0 = PollOutcome.errorBody "access_denied") :
    pollForToken w.pollOutcomes = (Except.error deniedMessage, 1) ∧
    authenticate w = Except.error deniedMessage ∧
    deniedMessage ≠ timeoutMessage ∧
    (∀ e, deniedMessage ≠ genericFailureMessage e) := by
  have hp : pollForToken w.pollOutcomes = (Except.error deniedMessage, 1) := by
    unfold pollForToken maxAttempts
    simp [pollAux, h0]
  refine ⟨hp, ?_, by decide, ?_⟩
  · unfold authenticate
    rw [hs]
    simp [hd, hp]
  · intro e he
    have hdata := congrArg String.data he
    rw [genericFailureMessage, String.data_append] at hdata
    have htake := congrArg (List.take (String.data "Authentication failed: ").length) hdata
    rw [List.take_left] at htake
    revert htake
    decide

/-- Claim C5 witness: denial on the very first poll. -/
theorem poll_access_denied_first_witness :
    authenticate { existingSession := none, deviceCodeOk := true,
                   pollOutcomes := fun _ => PollOutcome.errorBody "access_denied",
                   verifyUser := none, now := 0 } = Except.error deniedMessage :=
  (poll_access_denied_first _ rfl rfl rfl).2.1

/-- Claim C3: when the first response to a `request` is a 401, the gateway clears
the session store, re-authenticates exactly once, and retries the original
call exactly once (two fetches total, never a third), with the retry
carrying the freshly obtained token; a 2xx retry yields the success result,
a failing retry yields the retry's structured error; starting with no stored
token the run performs exactly two `authenticate()` invocations, starting
with a stored token exactly one. -/
theorem request_401_retry (initialToken : Option String) (auth : Nat → String)
    (resp : Nat → HttpResponse) (h401 : (resp 0).status = 401) :
    (request initialToken auth resp).2.clearedSession = true ∧
    (request initialToken auth resp).2.reAuthRuns = 1 ∧
    (request initialToken auth resp).2.fetches = 2 ∧
    ((resp 1).ok = true →
      (request initialToken auth resp).1 = ApiResult.success (resp 1).payload) ∧
    ((resp 1).ok = false →
      (request initialToken auth resp).1 = structuredError (resp 1)) ∧
    (initialToken = none →
      (request initialToken auth resp).2.authRuns = 2 ∧
      (request initialToken auth resp).2.tokens = [auth 0, auth 1]) ∧
    (∀ t, initialToken = some t →
      (request initialToken auth resp).2.authRuns = 1 ∧
      (request initialToken auth resp).2.tokens = [t, auth 0]) := by
  have hok : (resp 0).ok = false := by
    simp [HttpResponse.ok, h401]
  cases initialToken with
  | none =>
    by_cases h1 : (resp 1).ok
    · simp [request, hok, h401, h1]
    · simp [request, hok, h401, h1]
  | some t =>
    by_cases h1 : (resp 1).ok
    · simp [request, hok, h401, h1]
    · simp [request, hok, h401, h1]

/-- Claim C3 witness: a stored token, a 401 then a 500. -/
theorem request_401_retry_witness :
    (request (some "tok_stale") (fun _ => "tok_fresh")
        (fun n => if n = 0 then { status := 401, statusText := "Unauthorized" }
                  else { status := 500, message := some "boom",
                         statusText := "Internal Server Error" })).2.fetches = 2 :=
  (request_401_retry (some "tok_stale") (fun _ => "tok_fresh")
    (fun n => if n = 0 then { status := 401, statusText := "Unauthorized" }
              else { status := 500, message := some "boom",
                     statusText := "Internal Server Error" }) rfl).2.2.1

/-- Claim C2: in live mode, a missing or non-matching confirmation makes
`rotateCredentials` return `success: false`, `requiresConfirmation: true`,
the exact phrase `"ROTATE LIVE CREDENTIALS"` and the blast-radius warning,
without invoking the mutation call; the exact phrase proceeds to the
mutation call. -/
theorem rotate_live_gate (input : RotateCredentialsInput)
    (api : ApiReply RotateData) (hl : input.environment = Env.live) :
    (input.confirmation ≠ some LIVE_CONFIRMATION →
      (rotateCredentials input api).1.success = false ∧
      (rotateCredentials input api).1.requiresConfirmation = some true ∧
      (rotateCredentials input api).1.confirmationPhrase = some LIVE_CONFIRMATION ∧
      (rotateCredentials input api).1.warning = some rotateLiveWarning ∧
      (rotateCredentials input api).2 = false) ∧
    (input.confirmation = some LIVE_CONFIRMATION →
      (rotateCredentials input api).2 = true) := by
  constructor
  · intro hc
    simp [rotateCredentials, hl, hc]
  · intro hc
    have h1 : ¬(input.environment = Env.live ∧
        input.confirmation ≠ some LIVE_CONFIRMATION) := by
      simp [hl, hc]
    have h2 : ¬(input.environment ≠ Env.live ∧ optFalsy input.confirmation = true) := by
      simp [hl]
    simp only [rotateCredentials, if_neg h1]
    rw [if_neg]
    · cases hs : api.success <;> cases hd : api.data <;> simp
    · simpa using h2

/-- Claim C2 witness: live rotation with no confirmation at a concrete input. -/
theorem rotate_live_gate_witness :
    (rotateCredentials { appId := "app_1", environment := Env.live, orgId := "org_1" }
        sampleRotateReply).2 = false :=
  ((rotate_live_gate { appId := "app_1", environment := Env.live, orgId := "org_1" }
      sampleRotateReply rfl).1 (by simp [LIVE_CONFIRMATION])).2.2.2.2

/-- Claim C1 counterexample: in test mode with the arbitrary non-matching,
non-empty confirmation string `"banana"`, `rotateCredentials` does not
return `requiresConfirmation: true` — it proceeds to the underlying
mutation call. -/
theorem rotate_test_mismatch_proceeds :
    (rotateCredentials rotateTestMismatchInput sampleRotateReply).1.requiresConfirmation
        = none ∧
    (rotateCredentials rotateTestMismatchInput sampleRotateReply).2 = true := by
  decide

/-- Claim C1 (amended): in test mode the confirmation gate fires only on a falsy
(absent or empty) confirmation — then it returns `requiresConfirmation:
true` with the test phrase and no mutation call; any non-empty supplied
string, matching or not, proceeds to the mutation call. -/
theorem rotate_test_gate (input : RotateCredentialsInput)
    (api : ApiReply RotateData) (ht : input.environment = Env.test) :
    (optFalsy input.confirmation = true →
      (rotateCredentials input api).1.success = false ∧
      (rotateCredentials input api).1.requiresConfirmation = some true ∧
      (rotateCredentials input api).1.confirmationPhrase = some TEST_CONFIRMATION ∧
      (rotateCredentials input api).1.warning = some rotateTestWarning ∧
      (rotateCredentials input api).2 = false) ∧
    (optFalsy input.confirmation = false →
      (rotateCredentials input api).2 = true) := by
  have h1 : ¬(input.environment = Env.live ∧
      input.confirmation ≠ some LIVE_CONFIRMATION) := by
    simp [ht]
  constructor
  · intro hc
    simp [rotateCredentials, ht, hc, h1]
  · intro hc
    simp only [rotateCredentials, if_neg h1]
    rw [if_neg]
    · cases hs : api.success <;> cases hd : api.data <;> simp
    · simp [hc]

/-- Claim C1 amended-theorem witness: an absent confirmation in test mode. -/
theorem rotate_test_gate_witness :
    (rotateCredentials { appId := "app_1", environment := Env.test, orgId := "org_1" }
        sampleRotateReply).2 = false :=
  ((rotate_test_gate { appId := "app_1", environment := Env.test, orgId := "org_1" }
      sampleRotateReply rfl).1 rfl).2.2.2.2

/-- Claim C8 counterexample: `addRedirectUri` in test mode with no confirmation
supplied performs the mutation call and returns no ConfirmationRequest —
the soft gate is not uniform over the three mutating tools. -/
theorem add_test_no_confirmation_proceeds :
    (addRedirectUri addTestInput sampleUriReply).2 = true ∧
    (addRedirectUri addTestInput sampleUriReply).1.requiresConfirmation = none := by
  decide

/-- Claim C8 (amended): in test mode with no confirmation supplied,
`rotateCredentials` returns a ConfirmationRequest without mutating, but
`addRedirectUri` and `removeRedirectUri` never ask for confirmation in test
mode: remove always proceeds to the mutation call, add proceeds exactly
when the URI validates (which in test mode means it parses). -/
theorem low_risk_tool_gates (ri : RotateCredentialsInput) (ra : ApiReply RotateData)
    (ai : AddRedirectUriInput) (aa : ApiReply (List String))
    (vi : RemoveRedirectUriInput) (va : ApiReply (List String))
    (hr : ri.environment = Env.test) (hrc : ri.confirmation = none)
    (ha : ai.environment = Env.test) (hv : vi.environment = Env.test) :
    ((rotateCredentials ri ra).1.success = false ∧
     (rotateCredentials ri ra).1.requiresConfirmation = some true ∧
     (rotateCredentials ri ra).1.confirmationPhrase = some TEST_CONFIRMATION ∧
     (rotateCredentials ri ra).2 = false) ∧
    ((addRedirectUri ai aa).1.requiresConfirmation = none ∧
     (addRedirectUri ai aa).2 = ai.parsedUri.isSome) ∧
    ((removeRedirectUri vi va).1.requiresConfirmation = none ∧
     (removeRedirectUri vi va).2 = true) := by
  refine ⟨?_, ?_, ?_⟩
  · simp [rotateCredentials, hr, hrc, optFalsy]
  · cases hp : ai.parsedUri with
    | none => simp [addRedirectUri, validateRedirectUri, hp]
    | some p =>
      have hval : validateRedirectUri (some p) Env.test = { valid := true } := by
        simp [validateRedirectUri]
      cases hs : aa.success <;> cases hd : aa.data <;>
        simp [addRedirectUri, ha, hp, hval, hs, hd]
  · have h1 : ¬(vi.environment = Env.live ∧
        vi.confirmation ≠ some REMOVE_LIVE_CONFIRMATION) := by
      simp [hv]
    cases hs : va.success <;> cases hd : va.data <;>
      simp [removeRedirectUri, h1, hs, hd]

/-- Claim C8 amended-theorem witness: concrete test-mode inputs for all three
tools. -/
theorem low_risk_tool_gates_witness :
    (removeRedirectUri removeTestInput sampleUriReply).2 = true :=
  (low_risk_tool_gates
    { appId := "app_1", environment := Env.test, orgId := "org_1" } sampleRotateReply
    addTestInput sampleUriReply
    removeTestInput sampleUriReply
    rfl rfl rfl rfl).2.2.2

/-- Claim C9: in live mode `addRedirectUri` rejects — with `success: false`, a
validation error, no ConfirmationRequest and no network call — every URI
that fails to parse, every non-HTTPS URI on a non-`localhost` host, and
every URI whose host is `localhost` or `127.0.0.1` (so `https://localhost`
is rejected although the HTTPS check exempts `localhost`); in test mode
every parsable URI passes validation. -/
theorem redirect_uri_live_validation (ai : AddRedirectUriInput)
    (aa : ApiReply (List String)) :
    (ai.environment = Env.live → ai.parsedUri = none →
      (addRedirectUri ai aa).1.success = false ∧
      (addRedirectUri ai aa).1.error = some "Invalid URL format" ∧
      (addRedirectUri ai aa).1.requiresConfirmation = none ∧
      (addRedirectUri ai aa).2 = false) ∧
    (∀ p, ai.environment = Env.live → ai.parsedUri = some p →
      ((p.protocol ≠ "https:" ∧ p.hostname ≠ "localhost") ∨
        p.hostname = "localhost" ∨ p.hostname = "127.0.0.1") →
      (addRedirectUri ai aa).1.success = false ∧
      (addRedirectUri ai aa).1.error.isSome = true ∧
      (addRedirectUri ai aa).1.requiresConfirmation = none ∧
      (addRedirectUri ai aa).2 = false) ∧
    (∀ p, (validateRedirectUri (some p) Env.test).valid = true) ∧
    (validateRedirectUri (some { protocol := "https:", hostname := "localhost" })
        Env.live).valid = false := by
  refine ⟨?_, ?_, ?_, by decide⟩
  · intro hl hp
    simp [addRedirectUri, validateRedirectUri, hp]
  · intro p hl hp hbad
    have hval : (validateRedirectUri ai.parsedUri ai.environment).valid = false ∧
        (validateRedirectUri ai.parsedUri ai.environment).error.isSome = true := by
      rcases hbad with ⟨hproto, hhost⟩ | hloc | hloc
      · simp [validateRedirectUri, hp, hl, hproto, hhost]
      · simp [validateRedirectUri, hp, hl, hloc]
      · by_cases hproto : p.protocol = "https:"
        · simp [validateRedirectUri, hp, hl, hloc, hproto]
        · simp [validateRedirectUri, hp, hl, hloc, hproto]
    refine ⟨?_, ?_, ?_, ?_⟩ <;> simp [addRedirectUri, hval.1, hval.2]
  · intro p
    simp [validateRedirectUri]

/-- Claim C9 witness: a plain-HTTP public-host URI in live mode is rejected
without a network call. -/
theorem redirect_uri_live_validation_witness :
    (addRedirectUri addLiveHttpInput sampleUriReply).2 = false :=
  ((redirect_uri_live_validation addLiveHttpInput sampleUriReply).2.1
    { protocol := "http:", hostname := "example.com" } rfl rfl
    (Or.inl ⟨by decide, by decide⟩)).2.2.2

end AgekeyMcp
